import Mathlib

/-
Verification of the sportsipy field-extraction engine
(src/sportsreference/nhl/boxscore.py and src/sportsreference/nba/schedule.py).

The Python code is shallowly embedded: strings are Lean `String`s, Python
`None`-able attributes become `Option`, raising code returns `Except String`
(the payload names the Python exception class), and the external document
adapter (pyquery) is modelled as explicit structures supplying selector
lookup results.
-/

/-! ## Python string primitives -/

/-- Whitespace characters removed by Python's `str.strip()` (ASCII subset). -/
def pyWsChar (c : Char) : Bool :=
  c = ' ' || c = '\t' || c = '\n' || c = '\r' || c = '\x0b' || c = '\x0c'

/-- Python `str.strip()` on a character list. -/
def pyStrip (l : List Char) : List Char :=
  ((l.dropWhile pyWsChar).reverse.dropWhile pyWsChar).reverse

/-- Python `str.strip()` on a `String`. -/
def pyStripStr (s : String) : String :=
  ⟨pyStrip s.data⟩

/-- Numeric value of an ASCII digit character. -/
def digitVal (c : Char) : Nat :=
  c.toNat - 48

/-- Digit-run parser for Python `int()`: after the first digit, each further
character is either a digit or a single underscore followed by a digit. -/
def pyDigitsAux (acc : Nat) : List Char → Option Nat
  | [] => some acc
  | '_' :: c :: t => if c.isDigit then pyDigitsAux (acc * 10 + digitVal c) t else none
  | '_' :: [] => none
  | c :: t => if c.isDigit then pyDigitsAux (acc * 10 + digitVal c) t else none

/-- Unsigned body of Python `int()`: a non-empty digit run, with single
underscores permitted between digits. -/
def pyIntCore : List Char → Option Nat
  | [] => none
  | c :: t => if c.isDigit then pyDigitsAux (digitVal c) t else none

/-- Python `int(s)`: surrounding whitespace stripped, optional sign, base-10
digits.  `none` models the `ValueError` raised on any other input. -/
def pyInt? (s : String) : Option Int :=
  match pyStrip s.data with
  | '+' :: t => (pyIntCore t).map Int.ofNat
  | '-' :: t => (pyIntCore t).map (fun n => -(n : Int))
  | t => (pyIntCore t).map Int.ofNat

/-- Split a character list at the first occurrence of `m`: returns
`some (a, b)` with the input equal to `a ++ m ++ b` and `a` shortest. -/
def listSplitAtFirst? (m : List Char) : List Char → Option (List Char × List Char)
  | [] => if m.isEmpty then some ([], []) else none
  | c :: t =>
    if m.isPrefixOf (c :: t) then some ([], (c :: t).drop m.length)
    else
      match listSplitAtFirst? m t with
      | some (a, b) => some (c :: a, b)
      | none => none

/-- Split a character list at the last occurrence of `m` (latest start
position): returns `some (a, b)` with the input equal to `a ++ m ++ b`
and `a` longest. -/
def listSplitAtLast? (m : List Char) : List Char → Option (List Char × List Char)
  | [] => if m.isEmpty then some ([], []) else none
  | c :: t =>
    match listSplitAtLast? m t with
    | some (a, b) => some (c :: a, b)
    | none => if m.isPrefixOf (c :: t) then some ([], (c :: t).drop m.length) else none

/-- Python's `sub in s` substring test. -/
def pyContains (sub s : String) : Bool :=
  (listSplitAtFirst? sub.data s.data).isSome

/-- Python `str.lower()` (ASCII letters). -/
def pyLower (s : String) : String :=
  ⟨s.data.map Char.toLower⟩

/-- Split a character list on every occurrence of a separator character,
keeping empty segments — Python's `str.split(sep)` for one-character
separators. -/
def splitOnSep (sep : Char) : List Char → List (List Char)
  | [] => [[]]
  | c :: t =>
    match splitOnSep sep t with
    | [] => [[c]]
    | h :: r => if c = sep then [] :: h :: r else (c :: h) :: r

/-- Python `str.split(sep)` on `String`s, for a one-character separator. -/
def pySplitStr (sep : Char) (s : String) : List String :=
  (splitOnSep sep s.data).map (fun l => (⟨l⟩ : String))

/-- Python `sep.join(parts)`. -/
def pyJoin (sep : String) (parts : List String) : String :=
  ⟨List.intercalate sep.data (parts.map String.data)⟩

/-- Fueled engine of Python `str.replace`: replace every non-overlapping
occurrence of `m`, scanning left to right.  The fuel is the input length,
which every step consumes. -/
def replaceAllAux : Nat → List Char → List Char → List Char → List Char
  | 0, _, _, s => s
  | _ + 1, _, _, [] => []
  | n + 1, m, r, c :: t =>
    if m.isPrefixOf (c :: t) && !m.isEmpty then
      r ++ replaceAllAux n m r ((c :: t).drop m.length)
    else c :: replaceAllAux n m r t

/-- Python `s.replace(m, r)` (for a non-empty pattern `m`). -/
def pyReplace (s m r : String) : String :=
  ⟨replaceAllAux s.data.length m.data r.data s.data⟩

/-- Maximal newline-free segments of a character list. A Python regex `.`
never matches a newline, so `re.sub` with `.*`-patterns acts per segment. -/
def splitLines : List Char → List (List Char) :=
  splitOnSep '\n'

/-- Within one line, drop everything up to and including the last occurrence
of marker `m` (the effect of one greedy `.*m` match). -/
def dropThroughLast (m line : List Char) : List Char :=
  match listSplitAtLast? m line with
  | some (_, b) => b
  | none => line

/-- Within one line, keep only what stands before the first occurrence of
marker `m` (the effect of one greedy `m.*` match). -/
def keepBeforeFirst (m line : List Char) : List Char :=
  match listSplitAtFirst? m line with
  | some (a, _) => a
  | none => line

/-- Python `re.sub(r'.*<m>', '', s)` for a literal marker `m` without
newlines: per newline-free segment, drop through the last occurrence. -/
def pySubToLastMarker (m s : List Char) : List Char :=
  List.intercalate ['\n'] ((splitLines s).map (dropThroughLast m))

/-- Python `re.sub(r'<m>.*', '', s)` for a literal marker `m` without
newlines: per newline-free segment, truncate at the first occurrence. -/
def pySubFromMarker (m s : List Char) : List Char :=
  List.intercalate ['\n'] ((splitLines s).map (keepBeforeFirst m))

/-! ## NHL opponent/side aggregation (`nhl_int_property_decorator`) -/

/-- Body of `nhl_int_property_decorator.wrapper`: pick the away (first
`index`) or home (from `index` on) chunk of the raw cell list, where
`index` is the away-goalie count for the four goalie-specific fields and
the away-skater count otherwise, and sum the cells that `int()` accepts,
skipping the rest. -/
def nhlIntAggregate (fieldName : String) (value : List String)
    (numSkaters numGoalies : Nat) : Int :=
  let index :=
    if fieldName == "away_saves" || fieldName == "away_shutout" ||
       fieldName == "home_saves" || fieldName == "home_shutout"
    then numGoalies else numSkaters
  let valueSubset :=
    if pyContains "home" fieldName then value.drop index else value.take index
  valueSubset.foldl (fun n x => match pyInt? x with | some v => n + v | none => n) 0

/-- Spec-side description of the aggregation: the sum of the entries of a
cell list that parse as integers. -/
def parsedSum (l : List String) : Int :=
  (l.filterMap pyInt?).sum

theorem foldl_pyInt_sum (l : List String) (acc : Int) :
    l.foldl (fun n x => match pyInt? x with | some v => n + v | none => n) acc
      = acc + parsedSum l := by
  induction l generalizing acc with
  | nil => simp [parsedSum]
  | cons x t ih =>
    cases h : pyInt? x with
    | none => simp [List.foldl, h, ih, parsedSum, List.filterMap_cons, h]
    | some v =>
      simp only [List.foldl, h, ih, parsedSum, List.filterMap_cons, List.sum_cons]
      ring

/-! ## NHL boxscore embedding (`sportsreference/nhl/boxscore.py`) -/

/-- An HTML name tag as seen by the code: `text` is `tag.text()` and `raw`
is `str(tag)` (the markup used for path-based abbreviation parsing). -/
structure Tag where
  text : String
  raw : String
deriving DecidableEq

/-- Document query adapter for a boxscore page: for a selector, `texts`
lists the text of each matched element, `tag` yields the matched fragment
itself, and `goalieTrCounts` lists, per matched element, its count of
`tbody tr` descendants (used for the away-goalie count). -/
structure NhlDoc where
  texts : String → List String
  tag : String → Tag
  goalieTrCounts : String → List Nat

/-- The playoff-round labels tested (case-insensitively, by substring)
against line 1 of the date/location block. -/
def hasRoundLabel (line : String) : Bool :=
  pyContains "eastern first round" (pyLower line) ||
  pyContains "western first round" (pyLower line) ||
  pyContains "eastern second round" (pyLower line) ||
  pyContains "western second round" (pyLower line) ||
  pyContains "eastern conference finals" (pyLower line) ||
  pyContains "western conference finals" (pyLower line) ||
  pyContains "stanley cup final" (pyLower line)

/-- Embeds `Boxscore._parse_game_date_and_location`, given the texts of the
elements matched by the field's selector and the field's configured index.
`items[0]` and `game_info[1]` raise `IndexError` when absent; the final
`game_info[index]` lookup is wrapped in `try/except IndexError` and falls
back to the empty string. -/
def parseGameDateAndLocationE (field : String) (items : List String)
    (index : Nat) : Except String String :=
  match items with
  | [] => .error "IndexError"
  | first :: _ =>
    let gameInfo := pySplitStr '\n' first
    match gameInfo.get? 1 with
    | none => .error "IndexError"
    | some line1 =>
      let idx :=
        if hasRoundLabel line1 && !(field == "date") && !(field == "time")
        then index + 1 else index
      .ok (gameInfo.getD idx "")

/-- Modelled from the spec: `utils._parse_field` (the generic Field
Extractor, defined outside this repository).  An empty match set yields the
empty string, a single element yields its text, and a longer match list is
indexed positionally, an out-of-range index being a fatal configuration
error. -/
def parseFieldSpec (texts : List String) (index : Nat) : Except String String :=
  match texts with
  | [] => .ok ""
  | [t] => .ok t
  | ts =>
    match ts.get? index with
    | some t => .ok t
    | none => .error "configuration error: scheme index out of range"

/-- Raw NHL `Boxscore` record: one field per attribute initialised in
`Boxscore.__init__`, plus the away skater/goalie counts stashed at the end
of `_parse_game_data` (absent on an unparsed record). -/
structure RawBoxscore where
  uri : String
  date : Option String
  time : Option String
  arena : Option String
  attendance : Option String
  duration : Option String
  awayName : Option Tag
  homeName : Option Tag
  winner : Option String
  winningName : Option String
  winningAbbr : Option String
  losingName : Option String
  losingAbbr : Option String
  awayGoals : Option String
  awayAssists : Option String
  awayPoints : Option String
  awayPenaltiesInMinutes : Option String
  awayEvenStrengthGoals : Option String
  awayPowerPlayGoals : Option String
  awayShortHandedGoals : Option String
  awayGameWinningGoals : Option (List String)
  awayEvenStrengthAssists : Option (List String)
  awayPowerPlayAssists : Option (List String)
  awayShortHandedAssists : Option (List String)
  awayShotsOnGoal : Option String
  awayShootingPercentage : Option String
  awaySaves : Option (List String)
  awaySavePercentage : Option (List String)
  awayShutout : Option (List String)
  homeGoals : Option String
  homeAssists : Option String
  homePoints : Option String
  homePenaltiesInMinutes : Option String
  homeEvenStrengthGoals : Option String
  homePowerPlayGoals : Option String
  homeShortHandedGoals : Option String
  homeGameWinningGoals : Option (List String)
  homeEvenStrengthAssists : Option (List String)
  homePowerPlayAssists : Option (List String)
  homeShortHandedAssists : Option (List String)
  homeShotsOnGoal : Option String
  homeShootingPercentage : Option String
  homeSaves : Option (List String)
  homeSavePercentage : Option (List String)
  homeShutout : Option (List String)
  awaySkaters : Option Nat
  awayGoalies : Option Nat
deriving DecidableEq

/-- The record as left by `Boxscore.__init__`: every attribute `None`. -/
def initBoxscore (uri : String) : RawBoxscore where
  uri := uri
  date := none
  time := none
  arena := none
  attendance := none
  duration := none
  awayName := none
  homeName := none
  winner := none
  winningName := none
  winningAbbr := none
  losingName := none
  losingAbbr := none
  awayGoals := none
  awayAssists := none
  awayPoints := none
  awayPenaltiesInMinutes := none
  awayEvenStrengthGoals := none
  awayPowerPlayGoals := none
  awayShortHandedGoals := none
  awayGameWinningGoals := none
  awayEvenStrengthAssists := none
  awayPowerPlayAssists := none
  awayShortHandedAssists := none
  awayShotsOnGoal := none
  awayShootingPercentage := none
  awaySaves := none
  awaySavePercentage := none
  awayShutout := none
  homeGoals := none
  homeAssists := none
  homePoints := none
  homePenaltiesInMinutes := none
  homeEvenStrengthGoals := none
  homePowerPlayGoals := none
  homeShortHandedGoals := none
  homeGameWinningGoals := none
  homeEvenStrengthAssists := none
  homePowerPlayAssists := none
  homeShortHandedAssists := none
  homeShotsOnGoal := none
  homeShootingPercentage := none
  homeSaves := none
  homeSavePercentage := none
  homeShutout := none
  awaySkaters := none
  awayGoalies := none

/-- The index a plain field uses in `_parse_game_data`: its
`BOXSCORE_ELEMENT_INDEX` entry when one exists, else `0`. -/
def plainFieldIndex (eIdx : String → Option Nat) (field : String) : Nat :=
  (eIdx field).getD 0

/-- Date/location lookup as `_parse_game_data` performs it: the field's
index is read directly from `BOXSCORE_ELEMENT_INDEX` (a missing key would
raise `KeyError`). -/
def pgdlField (scheme : String → String) (eIdx : String → Option Nat)
    (doc : NhlDoc) (field : String) : Except String String :=
  match eIdx field with
  | none => .error "KeyError"
  | some i => parseGameDateAndLocationE field (doc.texts (scheme field)) i

/-- The away-goalie count: take the elements matched by the `away_goalies`
selector, skip the first (it covers skaters), and count the `tbody tr` rows
of the next one; fewer than two elements raises `StopIteration`. -/
def awayGoalieCount (scheme : String → String) (doc : NhlDoc) :
    Except String Nat :=
  match doc.goalieTrCounts (scheme "away_goalies") with
  | _ :: g :: _ => .ok g
  | _ => .error "StopIteration"

/-- Embeds `Boxscore._parse_game_data` on a successfully retrieved page: every
attribute is populated from the document, the date/location block fields
through `_parse_game_date_and_location`, the name fields as whole tags, the
fourteen `fields_to_special_parse` as raw cell-text lists, everything else
through the generic field extractor, and finally the away skater and goalie
counts are recorded. -/
def populateBoxscore (scheme : String → String) (eIdx : String → Option Nat)
    (doc : NhlDoc) (uri : String) : Except String RawBoxscore := do
  let date ← pgdlField scheme eIdx doc "date"
  let time ← pgdlField scheme eIdx doc "time"
  let arena ← pgdlField scheme eIdx doc "arena"
  let attendance ← pgdlField scheme eIdx doc "attendance"
  let duration ← pgdlField scheme eIdx doc "duration"
  let awayName := doc.tag (scheme "away_name")
  let homeName := doc.tag (scheme "home_name")
  let sp := fun f => doc.texts (scheme f)
  let pf := fun f => parseFieldSpec (doc.texts (scheme f)) (plainFieldIndex eIdx f)
  let awayGoals ← pf "away_goals"
  let awayAssists ← pf "away_assists"
  let awayPoints ← pf "away_points"
  let awayPenaltiesInMinutes ← pf "away_penalties_in_minutes"
  let awayEvenStrengthGoals ← pf "away_even_strength_goals"
  let awayPowerPlayGoals ← pf "away_power_play_goals"
  let awayShortHandedGoals ← pf "away_short_handed_goals"
  let awayShotsOnGoal ← pf "away_shots_on_goal"
  let awayShootingPercentage ← pf "away_shooting_percentage"
  let homeGoals ← pf "home_goals"
  let homeAssists ← pf "home_assists"
  let homePoints ← pf "home_points"
  let homePenaltiesInMinutes ← pf "home_penalties_in_minutes"
  let homeEvenStrengthGoals ← pf "home_even_strength_goals"
  let homePowerPlayGoals ← pf "home_power_play_goals"
  let homeShortHandedGoals ← pf "home_short_handed_goals"
  let homeShotsOnGoal ← pf "home_shots_on_goal"
  let homeShootingPercentage ← pf "home_shooting_percentage"
  let awaySkaters := (doc.texts (scheme "away_skaters")).length
  let awayGoalies ← awayGoalieCount scheme doc
  .ok
    { uri := uri
      date := some date
      time := some time
      arena := some arena
      attendance := some attendance
      duration := some duration
      awayName := some awayName
      homeName := some homeName
      winner := none
      winningName := none
      winningAbbr := none
      losingName := none
      losingAbbr := none
      awayGoals := some awayGoals
      awayAssists := some awayAssists
      awayPoints := some awayPoints
      awayPenaltiesInMinutes := some awayPenaltiesInMinutes
      awayEvenStrengthGoals := some awayEvenStrengthGoals
      awayPowerPlayGoals := some awayPowerPlayGoals
      awayShortHandedGoals := some awayShortHandedGoals
      awayGameWinningGoals := some (sp "away_game_winning_goals")
      awayEvenStrengthAssists := some (sp "away_even_strength_assists")
      awayPowerPlayAssists := some (sp "away_power_play_assists")
      awayShortHandedAssists := some (sp "away_short_handed_assists")
      awayShotsOnGoal := some awayShotsOnGoal
      awayShootingPercentage := some awayShootingPercentage
      awaySaves := some (sp "away_saves")
      awaySavePercentage := some (sp "away_save_percentage")
      awayShutout := some (sp "away_shutout")
      homeGoals := some homeGoals
      homeAssists := some homeAssists
      homePoints := some homePoints
      homePenaltiesInMinutes := some homePenaltiesInMinutes
      homeEvenStrengthGoals := some homeEvenStrengthGoals
      homePowerPlayGoals := some homePowerPlayGoals
      homeShortHandedGoals := some homeShortHandedGoals
      homeGameWinningGoals := some (sp "home_game_winning_goals")
      homeEvenStrengthAssists := some (sp "home_even_strength_assists")
      homePowerPlayAssists := some (sp "home_power_play_assists")
      homeShortHandedAssists := some (sp "home_short_handed_assists")
      homeShotsOnGoal := some homeShotsOnGoal
      homeShootingPercentage := some homeShootingPercentage
      homeSaves := some (sp "home_saves")
      homeSavePercentage := some (sp "home_save_percentage")
      homeShutout := some (sp "home_shutout")
      awaySkaters := some awaySkaters
      awayGoalies := some awayGoalies }

/-- Embeds `Boxscore._retrieve_html_page`: any exception raised while fetching and
parsing the page is swallowed and turned into `None`. -/
def retrieveHtmlPage (fetched : Except String NhlDoc) : Option NhlDoc :=
  match fetched with
  | .error _ => none
  | .ok doc => some doc

/-- Embeds `Boxscore.__init__` followed by `_parse_game_data`: a missing page
(fetch failure, i.e. a not-yet-played game) leaves the record exactly as
initialised; otherwise the record is populated from the document. -/
def boxscoreBuild (scheme : String → String) (eIdx : String → Option Nat)
    (fetched : Except String NhlDoc) (uri : String) :
    Except String RawBoxscore :=
  match retrieveHtmlPage fetched with
  | none => .ok (initBoxscore uri)
  | some doc => populateBoxscore scheme eIdx doc uri

/-! ## NHL typed accessors -/

/-- Embeds `Boxscore.date`: joins all but the last comma-separated chunk of the
raw date line; on an empty record `self._date` is `None` and the `split`
call raises `AttributeError`. -/
def dateProp (b : RawBoxscore) : Except String String :=
  match b.date with
  | none => .error "AttributeError"
  | some d => .ok (pyJoin "," (pySplitStr ',' d).dropLast)

/-- Embeds `Boxscore.time`: the text after the last comma, stripped. -/
def timeProp (b : RawBoxscore) : Except String String :=
  match b.time with
  | none => .error "AttributeError"
  | some t => .ok (pyStripStr ((pySplitStr ',' t).getLastD ""))

/-- Embeds `Boxscore.arena`: removes the literal prefix text from the raw line. -/
def arenaProp (b : RawBoxscore) : Except String String :=
  match b.arena with
  | none => .error "AttributeError"
  | some a => .ok (pyReplace a "Arena: " "")

/-- Embeds `Boxscore.duration`. -/
def durationProp (b : RawBoxscore) : Except String String :=
  match b.duration with
  | none => .error "AttributeError"
  | some d => .ok (pyReplace d "Game Duration: " "")

/-- Modelled from the spec: the shared integer coercion
(`int_property_decorator`, defined outside this repository) parses the raw
text as a base-10 integer and reports absent or unparseable data as an
explicit empty marker distinct from any integer. -/
def intCoerceSpec (v : Option String) : Option Int :=
  v.bind pyInt?

/-- Embeds `Boxscore.attendance`: the accessor body strips the label text and the
thousands separators (raising `AttributeError` on `None`), then the integer
coercion applies. -/
def attendanceProp (b : RawBoxscore) : Except String (Option Int) :=
  match b.attendance with
  | none => .error "AttributeError"
  | some a => .ok (pyInt? (pyReplace (pyReplace a "Attendance: " "") "," ""))

/-- Embeds `Boxscore.home_goals` (plain integer-coerced field). -/
def homeGoalsProp (b : RawBoxscore) : Except String (Option Int) :=
  .ok (intCoerceSpec b.homeGoals)

/-- Embeds `Boxscore.away_goals` (plain integer-coerced field). -/
def awayGoalsProp (b : RawBoxscore) : Except String (Option Int) :=
  .ok (intCoerceSpec b.awayGoals)

/-- Embeds `Boxscore.home_shots_on_goal` (plain integer-coerced field). -/
def homeShotsOnGoalProp (b : RawBoxscore) : Except String (Option Int) :=
  .ok (intCoerceSpec b.homeShotsOnGoal)

/-- Embeds `Boxscore.away_shots_on_goal` (plain integer-coerced field). -/
def awayShotsOnGoalProp (b : RawBoxscore) : Except String (Option Int) :=
  .ok (intCoerceSpec b.awayShotsOnGoal)

/-- An accessor wrapped by `nhl_int_property_decorator`: the wrapper reads
`self._away_skaters` and `self._away_goalies` (raising `AttributeError`
when the record was never populated) and then slices the raw cell list
(`None[:index]` raising `TypeError` on an empty record) before summing. -/
def nhlIntPropE (fieldName : String) (raw : Option (List String))
    (skaters goalies : Option Nat) : Except String Int :=
  match skaters, goalies with
  | some nS, some nG =>
    match raw with
    | some value => .ok (nhlIntAggregate fieldName value nS nG)
    | none => .error "TypeError"
  | _, _ => .error "AttributeError"

/-- Embeds `Boxscore.away_saves`. -/
def awaySavesProp (b : RawBoxscore) : Except String Int :=
  nhlIntPropE "away_saves" b.awaySaves b.awaySkaters b.awayGoalies

/-- Embeds `Boxscore.home_saves`. -/
def homeSavesProp (b : RawBoxscore) : Except String Int :=
  nhlIntPropE "home_saves" b.homeSaves b.awaySkaters b.awayGoalies

/-- Embeds `Boxscore.away_shutout`. -/
def awayShutoutProp (b : RawBoxscore) : Except String Int :=
  nhlIntPropE "away_shutout" b.awayShutout b.awaySkaters b.awayGoalies

/-- Embeds `Boxscore.home_shutout`. -/
def homeShutoutProp (b : RawBoxscore) : Except String Int :=
  nhlIntPropE "home_shutout" b.homeShutout b.awaySkaters b.awayGoalies

/-- Embeds `Boxscore.away_even_strength_assists`. -/
def awayEvenStrengthAssistsProp (b : RawBoxscore) : Except String Int :=
  nhlIntPropE "away_even_strength_assists" b.awayEvenStrengthAssists
    b.awaySkaters b.awayGoalies

/-- Embeds `Boxscore.home_even_strength_assists`. -/
def homeEvenStrengthAssistsProp (b : RawBoxscore) : Except String Int :=
  nhlIntPropE "home_even_strength_assists" b.homeEvenStrengthAssists
    b.awaySkaters b.awayGoalies

/-- Round half to even, as Python's `round` does. -/
def roundHalfEven (q : ℚ) : ℤ :=
  let f := ⌊q⌋
  if q - f < 1 / 2 then f
  else if q - f > 1 / 2 then f + 1
  else if f % 2 = 0 then f else f + 1

/-- Python `round(q, 3)`; floats are modelled as exact rationals. -/
def pyRound3 (q : ℚ) : ℚ :=
  (roundHalfEven (q * 1000) : ℚ) / 1000

/-- Embeds `Boxscore.away_save_percentage`: away saves over home shots on goal,
rounded to three places; a `ZeroDivisionError` is caught and turned into
`0.0`, while `float(None)` on an uncoerced shot total raises `TypeError`. -/
def awaySavePercentageProp (b : RawBoxscore) : Except String ℚ := do
  let saves ← awaySavesProp b
  match intCoerceSpec b.homeShotsOnGoal with
  | none => .error "TypeError"
  | some shots =>
    if shots = 0 then .ok 0
    else .ok (pyRound3 ((saves : ℚ) / (shots : ℚ)))

/-- Embeds `Boxscore.home_save_percentage`: home saves over away shots on goal. -/
def homeSavePercentageProp (b : RawBoxscore) : Except String ℚ := do
  let saves ← homeSavesProp b
  match intCoerceSpec b.awayShotsOnGoal with
  | none => .error "TypeError"
  | some shots =>
    if shots = 0 then .ok 0
    else .ok (pyRound3 ((saves : ℚ) / (shots : ℚ)))

/-- Modelled from the spec: the `HOME`/`AWAY` enumerated constants from
`sportsreference.constants` (defined outside this repository). -/
inductive Side where
  | HOME
  | AWAY
deriving DecidableEq

/-- Python `>` on the integer-coerced goal totals: comparing the `None`
marker raises `TypeError`. -/
def pyGtOpt : Option Int → Option Int → Except String Bool
  | some a, some b => .ok (decide (b < a))
  | _, _ => .error "TypeError"

/-- Embeds `Boxscore.winner`: `HOME` when `home_goals > away_goals`, else
`AWAY`. -/
def winnerProp (b : RawBoxscore) : Except String Side := do
  let hg ← homeGoalsProp b
  let ag ← awayGoalsProp b
  let gt ← pyGtOpt hg ag
  if gt then .ok Side.HOME else .ok Side.AWAY

/-- Embeds `str(tag)` where the attribute may be `None` (`str(None)` is the
four-letter text `None`). -/
def tagStr : Option Tag → String
  | some t => t.raw
  | none => "None"

/-- Embeds `Boxscores._parse_abbreviation` (and the identical
`utils._parse_abbreviation` used by the `Boxscore` name accessors): strip
through the last `/teams/` path marker, then truncate at the next path
separator. -/
def parseAbbreviation (s : String) : String :=
  ⟨pySubFromMarker "/".data (pySubToLastMarker "/teams/".data s.data)⟩

/-- Embeds `Boxscore.winning_name`. -/
def winningNameProp (b : RawBoxscore) : Except String String := do
  let w ← winnerProp b
  if w = Side.HOME then
    match b.homeName with
    | some t => .ok t.text
    | none => .error "AttributeError"
  else
    match b.awayName with
    | some t => .ok t.text
    | none => .error "AttributeError"

/-- Embeds `Boxscore.losing_name`. -/
def losingNameProp (b : RawBoxscore) : Except String String := do
  let w ← winnerProp b
  if w = Side.HOME then
    match b.awayName with
    | some t => .ok t.text
    | none => .error "AttributeError"
  else
    match b.homeName with
    | some t => .ok t.text
    | none => .error "AttributeError"

/-- Embeds `Boxscore.winning_abbr`. -/
def winningAbbrProp (b : RawBoxscore) : Except String String := do
  let w ← winnerProp b
  if w = Side.HOME then .ok (parseAbbreviation (tagStr b.homeName))
  else .ok (parseAbbreviation (tagStr b.awayName))

/-- Embeds `Boxscore.losing_abbr`. -/
def losingAbbrProp (b : RawBoxscore) : Except String String := do
  let w ← winnerProp b
  if w = Side.HOME then .ok (parseAbbreviation (tagStr b.awayName))
  else .ok (parseAbbreviation (tagStr b.homeName))

/-! ## Boxscore URI extraction -/

/-- Embeds `Boxscores._get_boxscore_uri`: strip through the last `/boxscores/`
path marker, truncate from `.html` on, then strip whitespace. -/
def getBoxscoreUri (url : String) : String :=
  ⟨pyStrip (pySubFromMarker ".html".data
    (pySubToLastMarker "/boxscores/".data url.data))⟩

/-- The string transformation of `Game._parse_boxscore`
(`sportsreference/nba/schedule.py`): the same two substitutions, without
the final strip. -/
def parseBoxscoreUriNba (s : String) : String :=
  ⟨pySubFromMarker ".html".data (pySubToLastMarker "/boxscores/".data s.data)⟩

/-! ## NBA schedule embedding (`sportsreference/nba/schedule.py`) -/

/-- One table row handed to `Game`: `raw` is `str(item)` (markup, used for
the header-row test), `texts` the element texts per selector, and `tagRaw`
the markup of the fragment a selector matches (used for the boxscore
link). -/
structure Row where
  raw : String
  texts : String → List String
  tagRaw : String → String

/-- Raw NBA `Game` record after `_parse_game_data`: every attribute of
`__init__` except `_datetime` has been overwritten with an extracted
string; `_datetime` alone keeps its initial `None`. -/
structure NbaGame where
  game : String
  date : String
  datetimeAttr : Option String
  boxscore : String
  location : String
  opponentAbbr : String
  result : String
  pointsScored : String
  pointsAllowed : String
  fieldGoals : String
  fieldGoalAttempts : String
  fieldGoalPercentage : String
  threePointFieldGoals : String
  threePointFieldGoalAttempts : String
  threePointFieldGoalPercentage : String
  freeThrows : String
  freeThrowAttempts : String
  freeThrowPercentage : String
  offensiveRebounds : String
  totalRebounds : String
  assists : String
  steals : String
  blocks : String
  turnovers : String
  personalFouls : String
  oppFieldGoals : String
  oppFieldGoalAttempts : String
  oppFieldGoalPercentage : String
  oppThreePointFieldGoals : String
  oppThreePointFieldGoalAttempts : String
  oppThreePointFieldGoalPercentage : String
  oppFreeThrows : String
  oppFreeThrowAttempts : String
  oppFreeThrowPercentage : String
  oppOffensiveRebounds : String
  oppTotalRebounds : String
  oppAssists : String
  oppSteals : String
  oppBlocks : String
  oppTurnovers : String
  oppPersonalFouls : String
deriving DecidableEq

/-- Embeds `Game.__init__` / `Game._parse_game_data`: every attribute except
`datetime` (skipped) and `boxscore` (special-parsed from the embedded
link markup) is filled by the generic field extractor at index `0`. -/
def mkGame (scheme : String → String) (row : Row) : Except String NbaGame := do
  let pf := fun f => parseFieldSpec (row.texts (scheme f)) 0
  let game ← pf "game"
  let date ← pf "date"
  let boxscore :=
    parseBoxscoreUriNba (row.tagRaw "td[data-stat=\"box_score_text\"]:first")
  let location ← pf "location"
  let opponentAbbr ← pf "opponent_abbr"
  let result ← pf "result"
  let pointsScored ← pf "points_scored"
  let pointsAllowed ← pf "points_allowed"
  let fieldGoals ← pf "field_goals"
  let fieldGoalAttempts ← pf "field_goal_attempts"
  let fieldGoalPercentage ← pf "field_goal_percentage"
  let threePointFieldGoals ← pf "three_point_field_goals"
  let threePointFieldGoalAttempts ← pf "three_point_field_goal_attempts"
  let threePointFieldGoalPercentage ← pf "three_point_field_goal_percentage"
  let freeThrows ← pf "free_throws"
  let freeThrowAttempts ← pf "free_throw_attempts"
  let freeThrowPercentage ← pf "free_throw_percentage"
  let offensiveRebounds ← pf "offensive_rebounds"
  let totalRebounds ← pf "total_rebounds"
  let assists ← pf "assists"
  let steals ← pf "steals"
  let blocks ← pf "blocks"
  let turnovers ← pf "turnovers"
  let personalFouls ← pf "personal_fouls"
  let oppFieldGoals ← pf "opp_field_goals"
  let oppFieldGoalAttempts ← pf "opp_field_goal_attempts"
  let oppFieldGoalPercentage ← pf "opp_field_goal_percentage"
  let oppThreePointFieldGoals ← pf "opp_three_point_field_goals"
  let oppThreePointFieldGoalAttempts ← pf "opp_three_point_field_goal_attempts"
  let oppThreePointFieldGoalPercentage ←
    pf "opp_three_point_field_goal_percentage"
  let oppFreeThrows ← pf "opp_free_throws"
  let oppFreeThrowAttempts ← pf "opp_free_throw_attempts"
  let oppFreeThrowPercentage ← pf "opp_free_throw_percentage"
  let oppOffensiveRebounds ← pf "opp_offensive_rebounds"
  let oppTotalRebounds ← pf "opp_total_rebounds"
  let oppAssists ← pf "opp_assists"
  let oppSteals ← pf "opp_steals"
  let oppBlocks ← pf "opp_blocks"
  let oppTurnovers ← pf "opp_turnovers"
  let oppPersonalFouls ← pf "opp_personal_fouls"
  .ok
    { game := game
      date := date
      datetimeAttr := none
      boxscore := boxscore
      location := location
      opponentAbbr := opponentAbbr
      result := result
      pointsScored := pointsScored
      pointsAllowed := pointsAllowed
      fieldGoals := fieldGoals
      fieldGoalAttempts := fieldGoalAttempts
      fieldGoalPercentage := fieldGoalPercentage
      threePointFieldGoals := threePointFieldGoals
      threePointFieldGoalAttempts := threePointFieldGoalAttempts
      threePointFieldGoalPercentage := threePointFieldGoalPercentage
      freeThrows := freeThrows
      freeThrowAttempts := freeThrowAttempts
      freeThrowPercentage := freeThrowPercentage
      offensiveRebounds := offensiveRebounds
      totalRebounds := totalRebounds
      assists := assists
      steals := steals
      blocks := blocks
      turnovers := turnovers
      personalFouls := personalFouls
      oppFieldGoals := oppFieldGoals
      oppFieldGoalAttempts := oppFieldGoalAttempts
      oppFieldGoalPercentage := oppFieldGoalPercentage
      oppThreePointFieldGoals := oppThreePointFieldGoals
      oppThreePointFieldGoalAttempts := oppThreePointFieldGoalAttempts
      oppThreePointFieldGoalPercentage := oppThreePointFieldGoalPercentage
      oppFreeThrows := oppFreeThrows
      oppFreeThrowAttempts := oppFreeThrowAttempts
      oppFreeThrowPercentage := oppFreeThrowPercentage
      oppOffensiveRebounds := oppOffensiveRebounds
      oppTotalRebounds := oppTotalRebounds
      oppAssists := oppAssists
      oppSteals := oppSteals
      oppBlocks := oppBlocks
      oppTurnovers := oppTurnovers
      oppPersonalFouls := oppPersonalFouls }

/-- The header-separator test of `_add_games_to_schedule`: the row markup
carries one of the two header class markers. -/
def isHeaderRow (item : Row) : Bool :=
  pyContains "class=\"thead\"" item.raw ||
  pyContains "class=\"over_header thead\"" item.raw

/-- Embeds `Schedule._add_games_to_schedule`: walk the rows in document order,
skip header rows, build a `Game` for each remaining row and append it to
the accumulated game list. -/
def addGamesToSchedule (scheme : String → String) (games : List NbaGame) :
    List Row → Except String (List NbaGame)
  | [] => .ok games
  | item :: rest =>
    if isHeaderRow item then addGamesToSchedule scheme games rest
    else
      match mkGame scheme item with
      | .error e => .error e
      | .ok g => addGamesToSchedule scheme (games ++ [g]) rest

/-- A fetched schedule document.  `raw` is `str(doc)`; `regularRows` and
`playoffRows` model the row lists the external `utils._get_stats_table`
returns for the regular-season and playoff tables. -/
structure NbaDoc where
  raw : String
  regularRows : List Row
  playoffRows : List Row

/-- Embeds `Schedule._pull_schedule`: parse the regular-season table, then, when
the document carries the playoff marker, parse the playoff table with the
same builder, appending after the regular-season games. -/
def pullSchedule (scheme : String → String) (doc : NbaDoc) :
    Except String (List NbaGame) := do
  let games ← addGamesToSchedule scheme [] doc.regularRows
  if pyContains "tgl_basic_playoffs" doc.raw then
    addGamesToSchedule scheme games doc.playoffRows
  else .ok games

/-- Sequential game construction over a row list, kept abstract for the
statement of the schedule-assembly theorem. -/
def mapGames (f : Row → Except String NbaGame) :
    List Row → Except String (List NbaGame)
  | [] => .ok []
  | r :: t => do
    let g ← f r
    let gs ← mapGames f t
    .ok (g :: gs)

/-- A Python `datetime`: calendar date plus a time of day. -/
structure PyDateTime where
  year : Int
  month : Nat
  day : Nat
  hour : Nat
  minute : Nat
deriving DecidableEq

/-- Exactly four ASCII digits (the `%Y` directive). -/
def fourDigits? : List Char → Option (Nat × List Char)
  | a :: b :: c :: d :: rest =>
    if a.isDigit && b.isDigit && c.isDigit && d.isDigit then
      some (((digitVal a * 10 + digitVal b) * 10 + digitVal c) * 10 + digitVal d,
        rest)
    else none
  | _ => none

/-- One or two ASCII digits, greedily (the `%m`/`%d` directives). -/
def oneOrTwoDigits? : List Char → Option (Nat × List Char)
  | [] => none
  | [a] => if a.isDigit then some (digitVal a, []) else none
  | a :: b :: rest =>
    if a.isDigit then
      if b.isDigit then some (digitVal a * 10 + digitVal b, rest)
      else some (digitVal a, b :: rest)
    else none

/-- Leap-year test of the Gregorian calendar. -/
def isLeapYear (y : Int) : Bool :=
  (y % 4 == 0 && y % 100 != 0) || y % 400 == 0

/-- Days in a month, as `datetime` validates them. -/
def daysInMonth (y : Int) (m : Nat) : Nat :=
  if m = 2 then (if isLeapYear y then 29 else 28)
  else if m = 4 ∨ m = 6 ∨ m = 9 ∨ m = 11 then 30
  else 31

/-- Embeds `datetime.strptime(s, '%Y-%m-%d')`: a four-digit year, dash, one- or
two-digit month and day in range, nothing left over, validated against the
calendar; any failure raises `ValueError`. -/
def strptimeYMD (s : String) : Except String PyDateTime :=
  match fourDigits? s.data with
  | none => .error "ValueError"
  | some (y, rest) =>
    match rest with
    | '-' :: rest2 =>
      match oneOrTwoDigits? rest2 with
      | none => .error "ValueError"
      | some (m, rest3) =>
        if 1 ≤ m ∧ m ≤ 12 then
          match rest3 with
          | '-' :: rest4 =>
            match oneOrTwoDigits? rest4 with
            | some (d, []) =>
              if 1 ≤ (y : Int) ∧ 1 ≤ d ∧ d ≤ daysInMonth y m then
                .ok ⟨y, m, d, 0, 0⟩
              else .error "ValueError"
            | _ => .error "ValueError"
          | _ => .error "ValueError"
        else .error "ValueError"
    | _ => .error "ValueError"

/-- Embeds `Game.datetime`: parses the raw date string. -/
def gameDatetime (g : NbaGame) : Except String PyDateTime :=
  strptimeYMD g.date

/-- Embeds `Schedule.__call__`: walk the games in collection order; return the
first whose parsed date shares the query's year, month and day (the time
of day plays no part); raise `ValueError` when none matches.  An
unparseable game date raises out of the walk. -/
def scheduleCall (games : List NbaGame) (q : PyDateTime) :
    Except String NbaGame :=
  match games with
  | [] => .error "ValueError: No games found for requested date"
  | g :: rest =>
    match gameDatetime g with
    | .error e => .error e
    | .ok dt =>
      if dt.year = q.year ∧ dt.month = q.month ∧ dt.day = q.day then .ok g
      else scheduleCall rest q

/-- A game matches a query date when its date parses and agrees on year,
month and day. -/
def gameMatchesDate (q : PyDateTime) (g : NbaGame) : Bool :=
  match gameDatetime g with
  | .ok dt => dt.year == q.year && dt.month == q.month && dt.day == q.day
  | .error _ => false

deriving instance DecidableEq for Except

/-! ## Claim theorems -/

theorem nhlIntAggregate_spec (f : String) (value : List String) (nS nG : Nat) :
    nhlIntAggregate f value nS nG =
      (if f == "away_saves" || f == "away_shutout" ||
          f == "home_saves" || f == "home_shutout"
       then (if pyContains "home" f then parsedSum (value.drop nG)
             else parsedSum (value.take nG))
       else (if pyContains "home" f then parsedSum (value.drop nS)
             else parsedSum (value.take nS))) := by
  unfold nhlIntAggregate
  cases hb : (f == "away_saves" || f == "away_shutout" ||
      f == "home_saves" || f == "home_shutout") <;>
    cases hc : pyContains "home" f <;>
      simp [hb, hc, foldl_pyInt_sum]

/-- Claim C1: the opponent/side aggregation (`nhl_int_property_decorator`)
sums, for an away-team field, exactly the integer-parseable entries among
the first `N` cells and, for a home-team field, the parseable entries from
position `N` on, where `N` is the recorded away-skater count for the
skater fields and the recorded away-goalie count for the saves and shutout
fields; non-numeric cells are skipped. -/
theorem c1_opponent_aggregation (value : List String) (nS nG : Nat) :
    (∀ f ∈ (["away_game_winning_goals", "away_even_strength_assists",
             "away_power_play_assists", "away_short_handed_assists"] :
             List String),
        nhlIntAggregate f value nS nG = parsedSum (value.take nS))
    ∧ (∀ f ∈ (["home_game_winning_goals", "home_even_strength_assists",
               "home_power_play_assists", "home_short_handed_assists"] :
               List String),
        nhlIntAggregate f value nS nG = parsedSum (value.drop nS))
    ∧ nhlIntAggregate "away_saves" value nS nG = parsedSum (value.take nG)
    ∧ nhlIntAggregate "away_shutout" value nS nG = parsedSum (value.take nG)
    ∧ nhlIntAggregate "home_saves" value nS nG = parsedSum (value.drop nG)
    ∧ nhlIntAggregate "home_shutout" value nS nG = parsedSum (value.drop nG) := by
  refine ⟨?_, ?_, ?_, ?_, ?_, ?_⟩ <;>
    first
      | (intro f hf
         fin_cases hf <;>
           · rw [nhlIntAggregate_spec]
             rfl)
      | (rw [nhlIntAggregate_spec]; rfl)

/-- Witness for C1 at the spec's example list: away cells `1`, `` and `2`
(`N = 3`) sum to `3`, home cells `` and `3` sum to `3`. -/
theorem c1_opponent_aggregation_witness :
    nhlIntAggregate "away_even_strength_assists" ["1", "", "2", "", "3"] 3 1 = 3
    ∧ nhlIntAggregate "home_even_strength_assists" ["1", "", "2", "", "3"] 3 1
      = 3 := by
  have h := c1_opponent_aggregation ["1", "", "2", "", "3"] 3 1
  constructor
  · rw [h.1 "away_even_strength_assists" (by decide)]
    decide
  · rw [h.2.1 "home_even_strength_assists" (by decide)]
    decide

/-- Claim C2: in `_parse_game_date_and_location`, when line 1 of the
date/location block contains a playoff-round label (case-insensitively),
every field except `date` and `time` reads from its configured index plus
one while `date` and `time` keep their index; without a label every field
reads from its unshifted index. -/
theorem c2_playoff_index_shift (field first : String) (rest : List String)
    (index : Nat) (l1 : String)
    (h1 : (pySplitStr '\n' first).get? 1 = some l1) :
    ((hasRoundLabel l1 = true ∧ field ≠ "date" ∧ field ≠ "time") →
      parseGameDateAndLocationE field (first :: rest) index =
        .ok ((pySplitStr '\n' first).getD (index + 1) ""))
    ∧ ((hasRoundLabel l1 = false ∨ field = "date" ∨ field = "time") →
      parseGameDateAndLocationE field (first :: rest) index =
        .ok ((pySplitStr '\n' first).getD index "")) := by
  have h1' : (pySplitStr '\n' first)[1]? = some l1 := by simpa using h1
  constructor
  · rintro ⟨hl, hd, ht⟩
    have hbd : (field == "date") = false := by simp [hd]
    have hbt : (field == "time") = false := by simp [ht]
    simp [parseGameDateAndLocationE, h1', hl, hbd, hbt]
  · rintro (hl | hd | ht)
    · simp [parseGameDateAndLocationE, h1', hl]
    · subst hd
      simp [parseGameDateAndLocationE, h1']
    · subst ht
      simp [parseGameDateAndLocationE, h1']

/-- Witness for C2 at the spec's example block: with the round label
`Eastern Conference Finals` on line 1, the venue field configured at index
`1` resolves to line 2, the text `Arena: X`. -/
theorem c2_playoff_index_shift_witness :
    parseGameDateAndLocationE "arena"
      ["Wed, Oct 18, 2017\nEastern Conference Finals\nArena: X\nAttendance: 1,234"]
      1 = .ok "Arena: X" := by
  have h :=
    (c2_playoff_index_shift "arena"
      "Wed, Oct 18, 2017\nEastern Conference Finals\nArena: X\nAttendance: 1,234"
      [] 1 "Eastern Conference Finals" (by decide)).1
      ⟨by decide, by decide, by decide⟩
  rw [h]
  decide

theorem splitOnSep_eq_single (sep : Char) (s : List Char) (h : sep ∉ s) :
    splitOnSep sep s = [s] := by
  induction s with
  | nil => rfl
  | cons c t ih =>
    have hc : ¬c = sep := fun e => h (by simp [e])
    have ht : sep ∉ t := fun e => h (by simp [e])
    simp [splitOnSep, ih ht, hc]

theorem intercalate_single (sep x : List Char) :
    List.intercalate sep [x] = x := by
  simp [List.intercalate]

theorem listSplitAtLast?_cons (m : List Char) (c : Char) (t a b : List Char)
    (h : listSplitAtLast? m t = some (a, b)) :
    listSplitAtLast? m (c :: t) = some (c :: a, b) := by
  simp [listSplitAtLast?, h]

theorem listSplitAtLast?_append (m b : List Char)
    (h : listSplitAtLast? m (m ++ b) = some ([], b)) (a : List Char) :
    listSplitAtLast? m (a ++ (m ++ b)) = some (a, b) := by
  induction a with
  | nil => simpa using h
  | cons c a' ih =>
    rw [List.cons_append]
    exact listSplitAtLast?_cons m c _ a' b ih

/-- Counterexample to claim C3 as stated: the input has the required form
`<anything>/boxscores/<ID>.html<anything>` with `ID = a` and a suffix that
contains a second `/boxscores/` marker; the greedy `.*` makes both
extractors return `b` instead of `a`. -/
theorem c3_counterexample :
    getBoxscoreUri "/boxscores/a.html?u=/boxscores/b.html" = "b"
    ∧ parseBoxscoreUriNba "/boxscores/a.html?u=/boxscores/b.html" = "b"
    ∧ ("b" : String) ≠ "a" := by
  decide

/-- Claim C3 (amended): both extractors return exactly `<ID>` for inputs
`<pre>/boxscores/<ID>.html<suf>` provided the input has no newline, the
last occurrence of `/boxscores/` is the displayed one, the first
occurrence of `.html` after it is the displayed one, and `<ID>` carries no
surrounding whitespace. -/
theorem c3_boxscore_uri_extraction (pre ident suf : List Char)
    (hn : '\n' ∉ pre ++ "/boxscores/".data ++ ident ++ ".html".data ++ suf)
    (hlast : listSplitAtLast? "/boxscores/".data
      ("/boxscores/".data ++ (ident ++ (".html".data ++ suf)))
      = some ([], ident ++ (".html".data ++ suf)))
    (hfirst : listSplitAtFirst? ".html".data (ident ++ (".html".data ++ suf))
      = some (ident, suf))
    (hstrip : pyStrip ident = ident) :
    getBoxscoreUri
        ⟨pre ++ "/boxscores/".data ++ ident ++ ".html".data ++ suf⟩
      = ⟨ident⟩
    ∧ parseBoxscoreUriNba
        ⟨pre ++ "/boxscores/".data ++ ident ++ ".html".data ++ suf⟩
      = ⟨ident⟩ := by
  have hm : '\n' ∉
      pre ++ ("/boxscores/".data ++ (ident ++ (".html".data ++ suf))) := by
    simpa using hn
  have hm2 : '\n' ∉ ident ++ (".html".data ++ suf) := by
    intro hmem
    exact hm (by simp [List.mem_append] at hmem ⊢; tauto)
  have e1 : pySubToLastMarker "/boxscores/".data
      (pre ++ ("/boxscores/".data ++ (ident ++ (".html".data ++ suf))))
      = ident ++ (".html".data ++ suf) := by
    unfold pySubToLastMarker
    rw [show splitLines
        (pre ++ ("/boxscores/".data ++ (ident ++ (".html".data ++ suf))))
        = [pre ++ ("/boxscores/".data ++ (ident ++ (".html".data ++ suf)))]
      from splitOnSep_eq_single '\n' _ hm]
    rw [List.map_singleton, intercalate_single]
    unfold dropThroughLast
    rw [listSplitAtLast?_append _ _ hlast pre]
  have e2 : pySubFromMarker ".html".data (ident ++ (".html".data ++ suf))
      = ident := by
    unfold pySubFromMarker
    rw [show splitLines (ident ++ (".html".data ++ suf))
        = [ident ++ (".html".data ++ suf)]
      from splitOnSep_eq_single '\n' _ hm2]
    rw [List.map_singleton, intercalate_single]
    unfold keepBeforeFirst
    rw [hfirst]
  constructor
  · show String.mk (pyStrip (pySubFromMarker ".html".data
      (pySubToLastMarker "/boxscores/".data _))) = _
    rw [show pre ++ "/boxscores/".data ++ ident ++ ".html".data ++ suf
        = pre ++ ("/boxscores/".data ++ (ident ++ (".html".data ++ suf)))
      by simp [List.append_assoc]]
    rw [e1, e2, hstrip]
  · show String.mk (pySubFromMarker ".html".data
      (pySubToLastMarker "/boxscores/".data _)) = _
    rw [show pre ++ "/boxscores/".data ++ ident ++ ".html".data ++ suf
        = pre ++ ("/boxscores/".data ++ (ident ++ (".html".data ++ suf)))
      by simp [List.append_assoc]]
    rw [e1, e2]

/-- Witness for the amended C3 on a realistic anchor fragment. -/
theorem c3_boxscore_uri_extraction_witness :
    getBoxscoreUri
        ⟨"<a href=\"https://x.org".data ++ "/boxscores/".data
          ++ "201806070VEG".data ++ ".html".data ++ "\">Final</a>".data⟩
      = ⟨"201806070VEG".data⟩
    ∧ parseBoxscoreUriNba
        ⟨"<a href=\"https://x.org".data ++ "/boxscores/".data
          ++ "201806070VEG".data ++ ".html".data ++ "\">Final</a>".data⟩
      = ⟨"201806070VEG".data⟩ :=
  c3_boxscore_uri_extraction "<a href=\"https://x.org".data
    "201806070VEG".data "\">Final</a>".data
    (by decide) (by decide) (by decide) (by decide)

/-- The line index `_parse_game_date_and_location` finally reads: the
configured index, shifted by one for non-date/time fields when line 1
carries a playoff-round label. -/
def effectiveIndex (field l1 : String) (index : Nat) : Nat :=
  if hasRoundLabel l1 && !(field == "date") && !(field == "time")
  then index + 1 else index

/-- Counterexample to claim C4 as stated: a parsed multi-line block
(`a\nb`, two lines) with requested index `5` does not signal any error —
the `IndexError` is caught and the empty string is returned, exactly the
shape of legitimately absent data. -/
theorem c4_counterexample :
    parseGameDateAndLocationE "arena" ["a\nb"] 5 = .ok ""
    ∧ (pySplitStr '\n' "a\nb").length = 2 := by
  decide

/-- Claim C4 (amended): an out-of-range index against the scheme
selector's match list is a fatal configuration error, and a missing block
or a block with fewer than two lines raises a propagating `IndexError`;
but an out-of-range field index into the parsed multi-line block is
silently swallowed, yielding the empty string. -/
theorem c4_out_of_range_index (field : String) (index : Nat) :
    (∀ ts : List String, 2 ≤ ts.length → ∀ i, ts.length ≤ i →
      parseFieldSpec ts i =
        .error "configuration error: scheme index out of range")
    ∧ parseGameDateAndLocationE field [] index = .error "IndexError"
    ∧ (∀ first : String, ∀ rest : List String,
        (pySplitStr '\n' first).get? 1 = none →
        parseGameDateAndLocationE field (first :: rest) index =
          .error "IndexError")
    ∧ (∀ first : String, ∀ rest : List String, ∀ l1 : String,
        (pySplitStr '\n' first).get? 1 = some l1 →
        (pySplitStr '\n' first).length ≤ effectiveIndex field l1 index →
        parseGameDateAndLocationE field (first :: rest) index = .ok "") := by
  refine ⟨?_, rfl, ?_, ?_⟩
  · intro ts hlen i hi
    match ts, hlen with
    | a :: b :: t, _ =>
      have : (a :: b :: t).get? i = none := by
        rw [List.get?_eq_none]
        exact hi
      simp only [parseFieldSpec]
      rw [this]
  · intro first rest h
    have h' : (pySplitStr '\n' first)[1]? = none := by simpa using h
    simp [parseGameDateAndLocationE, h']
  · intro first rest l1 h hlen
    simp only [parseGameDateAndLocationE, h]
    rw [List.getD_eq_default]
    simpa [effectiveIndex] using hlen

/-- Witness for the amended C4: a three-item selector match indexed at `7`
is a propagating configuration error, while a two-line block read at field
index `9` silently yields the empty string. -/
theorem c4_out_of_range_index_witness :
    parseFieldSpec ["a", "b", "c"] 7 =
      .error "configuration error: scheme index out of range"
    ∧ parseGameDateAndLocationE "arena" ["x\ny"] 9 = .ok "" := by
  have h := c4_out_of_range_index "arena" 9
  exact ⟨h.1 ["a", "b", "c"] (by decide) 7 (by decide),
    h.2.2.2 "x\ny" [] "y" (by decide) (by decide)⟩

/-- Claim C5: when the page fetch fails, `Boxscore` construction completes
without raising and every parsed attribute of the record keeps its default
`None` state. -/
theorem c5_fetch_failure_empty (scheme : String → String)
    (eIdx : String → Option Nat) (uri err : String) :
    boxscoreBuild scheme eIdx (.error err) uri = .ok (initBoxscore uri)
    ∧ (initBoxscore uri).date = none
    ∧ (initBoxscore uri).time = none
    ∧ (initBoxscore uri).arena = none
    ∧ (initBoxscore uri).attendance = none
    ∧ (initBoxscore uri).duration = none
    ∧ (initBoxscore uri).awayName = none
    ∧ (initBoxscore uri).homeName = none
    ∧ (initBoxscore uri).winner = none
    ∧ (initBoxscore uri).winningName = none
    ∧ (initBoxscore uri).winningAbbr = none
    ∧ (initBoxscore uri).losingName = none
    ∧ (initBoxscore uri).losingAbbr = none
    ∧ (initBoxscore uri).awayGoals = none
    ∧ (initBoxscore uri).awayAssists = none
    ∧ (initBoxscore uri).awayPoints = none
    ∧ (initBoxscore uri).awayPenaltiesInMinutes = none
    ∧ (initBoxscore uri).awayEvenStrengthGoals = none
    ∧ (initBoxscore uri).awayPowerPlayGoals = none
    ∧ (initBoxscore uri).awayShortHandedGoals = none
    ∧ (initBoxscore uri).awayGameWinningGoals = none
    ∧ (initBoxscore uri).awayEvenStrengthAssists = none
    ∧ (initBoxscore uri).awayPowerPlayAssists = none
    ∧ (initBoxscore uri).awayShortHandedAssists = none
    ∧ (initBoxscore uri).awayShotsOnGoal = none
    ∧ (initBoxscore uri).awayShootingPercentage = none
    ∧ (initBoxscore uri).awaySaves = none
    ∧ (initBoxscore uri).awaySavePercentage = none
    ∧ (initBoxscore uri).awayShutout = none
    ∧ (initBoxscore uri).homeGoals = none
    ∧ (initBoxscore uri).homeAssists = none
    ∧ (initBoxscore uri).homePoints = none
    ∧ (initBoxscore uri).homePenaltiesInMinutes = none
    ∧ (initBoxscore uri).homeEvenStrengthGoals = none
    ∧ (initBoxscore uri).homePowerPlayGoals = none
    ∧ (initBoxscore uri).homeShortHandedGoals = none
    ∧ (initBoxscore uri).homeGameWinningGoals = none
    ∧ (initBoxscore uri).homeEvenStrengthAssists = none
    ∧ (initBoxscore uri).homePowerPlayAssists = none
    ∧ (initBoxscore uri).homeShortHandedAssists = none
    ∧ (initBoxscore uri).homeShotsOnGoal = none
    ∧ (initBoxscore uri).homeShootingPercentage = none
    ∧ (initBoxscore uri).homeSaves = none
    ∧ (initBoxscore uri).homeSavePercentage = none
    ∧ (initBoxscore uri).homeShutout = none
    ∧ (initBoxscore uri).awaySkaters = none
    ∧ (initBoxscore uri).awayGoalies = none := by
  simp [boxscoreBuild, retrieveHtmlPage, initBoxscore]

/-- Claim C6: `away_save_percentage` is the away saves total over the home
shots-on-goal total rounded to three places, and exactly `0.0` on a zero
divisor, with `home_save_percentage` the mirror image.  Floats are
modelled as exact rationals. -/
theorem c6_save_percentage (b : RawBoxscore) (savesA savesH : List String)
    (nS nG : Nat) (shotsH shotsA : Int)
    (h1 : b.awaySaves = some savesA) (h2 : b.homeSaves = some savesH)
    (h3 : b.awaySkaters = some nS) (h4 : b.awayGoalies = some nG)
    (h5 : intCoerceSpec b.homeShotsOnGoal = some shotsH)
    (h6 : intCoerceSpec b.awayShotsOnGoal = some shotsA) :
    awaySavePercentageProp b =
      .ok (if shotsH = 0 then 0
           else pyRound3 ((parsedSum (savesA.take nG) : ℚ) / (shotsH : ℚ)))
    ∧ homeSavePercentageProp b =
      .ok (if shotsA = 0 then 0
           else pyRound3 ((parsedSum (savesH.drop nG) : ℚ) / (shotsA : ℚ))) := by
  have ea : awaySavesProp b = .ok (parsedSum (savesA.take nG)) := by
    unfold awaySavesProp nhlIntPropE
    rw [h3, h4, h1]
    show Except.ok (nhlIntAggregate "away_saves" savesA nS nG) = _
    rw [nhlIntAggregate_spec]
    rfl
  have eh : homeSavesProp b = .ok (parsedSum (savesH.drop nG)) := by
    unfold homeSavesProp nhlIntPropE
    rw [h3, h4, h2]
    show Except.ok (nhlIntAggregate "home_saves" savesH nS nG) = _
    rw [nhlIntAggregate_spec]
    rfl
  constructor
  · unfold awaySavePercentageProp
    rw [ea, h5]
    by_cases hz : shotsH = 0 <;> simp only [hz, if_true, if_false] <;> rfl
  · unfold homeSavePercentageProp
    rw [eh, h6]
    by_cases hz : shotsA = 0 <;> simp only [hz, if_true, if_false] <;> rfl

/-- A populated sample record used to witness the accessor theorems. -/
def sampleBoxscore : RawBoxscore :=
  { initBoxscore "201806070VEG" with
    date := some "Wed, Oct 18, 2017, 7:00 PM"
    time := some "Wed, Oct 18, 2017, 7:00 PM"
    arena := some "Arena: T-Mobile Arena"
    attendance := some "Attendance: 18,529"
    duration := some "Game Duration: 2:45"
    awayName := some ⟨"Washington Capitals",
      "<a href=\"/teams/WSH/2018.html\">Washington Capitals</a>"⟩
    homeName := some ⟨"Vegas Golden Knights",
      "<a href=\"/teams/VEG/2018.html\">Vegas Golden Knights</a>"⟩
    awayGoals := some "2"
    homeGoals := some "3"
    awayShotsOnGoal := some "0"
    homeShotsOnGoal := some "25"
    awaySaves := some ["10", "12"]
    homeSaves := some ["8"]
    awaySkaters := some 18
    awayGoalies := some 2 }

/-- Witness for C6 on the sample record: the away side divides `22` saves
by `25` shots, and the home side hits the zero-divisor rule. -/
theorem c6_save_percentage_witness :
    awaySavePercentageProp sampleBoxscore =
      .ok (if (25 : Int) = 0 then 0
           else pyRound3 ((parsedSum (["10", "12"].take 2) : ℚ) / ((25 : Int) : ℚ)))
    ∧ homeSavePercentageProp sampleBoxscore =
      .ok (if (0 : Int) = 0 then 0
           else pyRound3 ((parsedSum (["8"].drop 2) : ℚ) / ((0 : Int) : ℚ))) :=
  c6_save_percentage sampleBoxscore ["10", "12"] ["8"] 18 2 25 0
    rfl rfl rfl rfl (by decide) (by decide)

/-- Claim C7: `Schedule.__call__` returns the first game in collection
order whose parsed date shares the query's year, month and day — the time
of day is ignored — and raises `ValueError` when no game matches. -/
theorem c7_schedule_date_lookup (games : List NbaGame) (q : PyDateTime)
    (h : ∀ g ∈ games, (gameDatetime g).isOk = true) :
    scheduleCall games q =
      (match games.find? (gameMatchesDate q) with
       | some g => .ok g
       | none => .error "ValueError: No games found for requested date") := by
  induction games with
  | nil => rfl
  | cons g rest ih =>
    have hg := h g (by simp)
    obtain ⟨dt, hdt⟩ : ∃ dt, gameDatetime g = .ok dt := by
      cases hgd : gameDatetime g with
      | error e => rw [hgd] at hg; simp [Except.isOk, Except.toBool] at hg
      | ok dt => exact ⟨dt, rfl⟩
    have hrest : ∀ g' ∈ rest, (gameDatetime g').isOk = true :=
      fun g' hm => h g' (by simp [hm])
    by_cases hmatch : dt.year = q.year ∧ dt.month = q.month ∧ dt.day = q.day
    · have hb : gameMatchesDate q g = true := by
        simp [gameMatchesDate, hdt, hmatch.1, hmatch.2.1, hmatch.2.2]
      rw [List.find?_cons_of_pos _ hb]
      simp [scheduleCall, hdt, hmatch]
    · have hb : gameMatchesDate q g = false := by
        simp only [gameMatchesDate, hdt]
        rw [Bool.eq_false_iff]
        intro hcontra
        apply hmatch
        have h3 := by simpa using hcontra
        exact ⟨h3.1.1, h3.1.2, h3.2⟩
      rw [List.find?_cons_of_neg _ (by simp [hb]), ← ih hrest]
      simp [scheduleCall, hdt, hmatch]

/-- A sample schedule row record for the lookup witness, dated
2017-10-18. -/
def sampleNbaGame : NbaGame where
  game := "1"
  date := "2017-10-18"
  datetimeAttr := none
  boxscore := "201710180BOS"
  location := "@"
  opponentAbbr := "BOS"
  result := "W"
  pointsScored := "102"
  pointsAllowed := "99"
  fieldGoals := ""
  fieldGoalAttempts := ""
  fieldGoalPercentage := ""
  threePointFieldGoals := ""
  threePointFieldGoalAttempts := ""
  threePointFieldGoalPercentage := ""
  freeThrows := ""
  freeThrowAttempts := ""
  freeThrowPercentage := ""
  offensiveRebounds := ""
  totalRebounds := ""
  assists := ""
  steals := ""
  blocks := ""
  turnovers := ""
  personalFouls := ""
  oppFieldGoals := ""
  oppFieldGoalAttempts := ""
  oppFieldGoalPercentage := ""
  oppThreePointFieldGoals := ""
  oppThreePointFieldGoalAttempts := ""
  oppThreePointFieldGoalPercentage := ""
  oppFreeThrows := ""
  oppFreeThrowAttempts := ""
  oppFreeThrowPercentage := ""
  oppOffensiveRebounds := ""
  oppTotalRebounds := ""
  oppAssists := ""
  oppSteals := ""
  oppBlocks := ""
  oppTurnovers := ""
  oppPersonalFouls := ""

/-- Witness for C7 at the spec's example: the one game dated 2017-10-18 is
found by a query carrying the time 20:00. -/
theorem c7_schedule_date_lookup_witness :
    scheduleCall [sampleNbaGame] ⟨2017, 10, 18, 20, 0⟩ = .ok sampleNbaGame := by
  rw [c7_schedule_date_lookup [sampleNbaGame] ⟨2017, 10, 18, 20, 0⟩ (by decide)]
  decide

theorem addGamesToSchedule_eq (scheme : String → String) (rows : List Row)
    (acc : List NbaGame) :
    addGamesToSchedule scheme acc rows =
      (mapGames (mkGame scheme) (rows.filter (fun r => !isHeaderRow r))).map
        (fun gs => acc ++ gs) := by
  induction rows generalizing acc with
  | nil => simp [addGamesToSchedule, mapGames, Except.map]
  | cons r rest ih =>
    by_cases hh : isHeaderRow r
    · simp [addGamesToSchedule, hh, ih, List.filter_cons]
    · have hfc : List.filter (fun x => !isHeaderRow x) (r :: rest)
          = r :: List.filter (fun x => !isHeaderRow x) rest := by
        simp [List.filter_cons, hh]
      rw [hfc]
      cases hmk : mkGame scheme r with
      | error e =>
        have hL : addGamesToSchedule scheme acc (r :: rest) = .error e := by
          simp [addGamesToSchedule, hh, hmk]
        rw [hL]
        simp only [mapGames, hmk]
        rfl
      | ok g =>
        have hL : addGamesToSchedule scheme acc (r :: rest)
            = addGamesToSchedule scheme (acc ++ [g]) rest := by
          simp [addGamesToSchedule, hh, hmk]
        rw [hL, ih (acc ++ [g])]
        simp only [mapGames, hmk]
        cases hmg : mapGames (mkGame scheme)
            (List.filter (fun x => !isHeaderRow x) rest) with
        | error e => rfl
        | ok gs =>
          show Except.ok (acc ++ [g] ++ gs) = Except.ok (acc ++ (g :: gs))
          simp

/-- Claim C8: header-separator rows never produce a game, the remaining
rows produce games in document order, and when the playoff marker is
present the playoff games are appended after every regular-season game. -/
theorem c8_schedule_assembly (scheme : String → String) (doc : NbaDoc) :
    pullSchedule scheme doc =
      (do
        let reg ← mapGames (mkGame scheme)
          (doc.regularRows.filter (fun r => !isHeaderRow r))
        let po ←
          (if pyContains "tgl_basic_playoffs" doc.raw then
            mapGames (mkGame scheme)
              (doc.playoffRows.filter (fun r => !isHeaderRow r))
          else .ok [])
        .ok (reg ++ po)) := by
  unfold pullSchedule
  rw [addGamesToSchedule_eq]
  cases hreg : mapGames (mkGame scheme)
      (doc.regularRows.filter fun r => !isHeaderRow r) with
  | error e => rfl
  | ok reg =>
    by_cases hm : pyContains "tgl_basic_playoffs" doc.raw
    · simp only [hm, Except.map, Except.bind, if_true, List.nil_append,
        addGamesToSchedule_eq]
      cases hpo : mapGames (mkGame scheme)
          (doc.playoffRows.filter fun r => !isHeaderRow r) with
      | error e => rfl
      | ok po => rfl
    · simp only [hm, Except.map, Except.bind, if_false, List.nil_append]
      show Except.ok reg = Except.ok (reg ++ [])
      rw [List.append_nil]

/-- Claim C9: on a record with no underlying data (game not yet played)
the typed accessors fail with an exception rather than returning a value,
and the plain integer-coerced fields report the explicit empty marker —
never a numeric or string value that could pass for real data. -/
theorem c9_empty_record_accessors (uri : String) :
    dateProp (initBoxscore uri) = .error "AttributeError"
    ∧ timeProp (initBoxscore uri) = .error "AttributeError"
    ∧ arenaProp (initBoxscore uri) = .error "AttributeError"
    ∧ attendanceProp (initBoxscore uri) = .error "AttributeError"
    ∧ durationProp (initBoxscore uri) = .error "AttributeError"
    ∧ awaySavesProp (initBoxscore uri) = .error "AttributeError"
    ∧ awaySavePercentageProp (initBoxscore uri) = .error "AttributeError"
    ∧ homeSavePercentageProp (initBoxscore uri) = .error "AttributeError"
    ∧ winnerProp (initBoxscore uri) = .error "TypeError"
    ∧ winningNameProp (initBoxscore uri) = .error "TypeError"
    ∧ homeGoalsProp (initBoxscore uri) = .ok none
    ∧ awayGoalsProp (initBoxscore uri) = .ok none :=
  ⟨rfl, rfl, rfl, rfl, rfl, rfl, rfl, rfl, rfl, rfl, rfl, rfl⟩

/-- Claim C10: `winner` is `HOME` exactly when the coerced home goal total
strictly exceeds the away total and `AWAY` otherwise — a tie is reported
as an `AWAY` win — and the winning/losing name and abbreviation accessors
pick the home- or away-side tag by that same comparison. -/
theorem c10_winner_logic (b : RawBoxscore) (hg ag : Int) (tH tA : Tag)
    (h1 : intCoerceSpec b.homeGoals = some hg)
    (h2 : intCoerceSpec b.awayGoals = some ag)
    (h3 : b.homeName = some tH) (h4 : b.awayName = some tA) :
    winnerProp b = .ok (if ag < hg then Side.HOME else Side.AWAY)
    ∧ (hg = ag → winnerProp b = .ok Side.AWAY)
    ∧ (∀ s, winnerProp b = .ok s → s = Side.HOME ∨ s = Side.AWAY)
    ∧ winningNameProp b = .ok (if ag < hg then tH.text else tA.text)
    ∧ losingNameProp b = .ok (if ag < hg then tA.text else tH.text)
    ∧ winningAbbrProp b =
        .ok (parseAbbreviation (if ag < hg then tH.raw else tA.raw))
    ∧ losingAbbrProp b =
        .ok (parseAbbreviation (if ag < hg then tA.raw else tH.raw)) := by
  have hw : winnerProp b = .ok (if ag < hg then Side.HOME else Side.AWAY) := by
    unfold winnerProp homeGoalsProp awayGoalsProp
    rw [h1, h2]
    show (if decide (ag < hg) = true then (Except.ok Side.HOME : Except String Side)
      else .ok Side.AWAY) = .ok (if ag < hg then Side.HOME else Side.AWAY)
    by_cases hlt : ag < hg <;> simp [hlt]
  refine ⟨hw, ?_, ?_, ?_, ?_, ?_, ?_⟩
  · intro he
    rw [hw, he]
    simp
  · intro s _
    cases s
    · exact Or.inl rfl
    · exact Or.inr rfl
  · unfold winningNameProp
    rw [hw]
    by_cases hlt : ag < hg <;> simp [hlt, h3, h4, Except.bind] <;> rfl
  · unfold losingNameProp
    rw [hw]
    by_cases hlt : ag < hg <;> simp [hlt, h3, h4, Except.bind] <;> rfl
  · unfold winningAbbrProp
    rw [hw]
    by_cases hlt : ag < hg <;> simp [hlt, h3, h4, tagStr, Except.bind] <;> rfl
  · unfold losingAbbrProp
    rw [hw]
    by_cases hlt : ag < hg <;> simp [hlt, h3, h4, tagStr, Except.bind] <;> rfl

/-- Witness for C10 on the sample record: home wins 3–2, so the winner is
`HOME` with the home side's name and abbreviation. -/
theorem c10_winner_logic_witness :
    winnerProp sampleBoxscore = .ok Side.HOME
    ∧ winningNameProp sampleBoxscore = .ok "Vegas Golden Knights"
    ∧ winningAbbrProp sampleBoxscore = .ok "VEG" := by
  have h := c10_winner_logic sampleBoxscore 3 2
    ⟨"Vegas Golden Knights",
      "<a href=\"/teams/VEG/2018.html\">Vegas Golden Knights</a>"⟩
    ⟨"Washington Capitals",
      "<a href=\"/teams/WSH/2018.html\">Washington Capitals</a>"⟩
    (by decide) (by decide) rfl rfl
  refine ⟨?_, ?_, ?_⟩
  · rw [h.1]
    decide
  · rw [h.2.2.2.1]
    decide
  · rw [h.2.2.2.2.2.1]
    decide
